import Mathlib

/-!
Shallow embedding of the celestial position and trajectory engine of the
Galactic-Guide repository (src/celestial_body.rs, src/celestial_data.rs,
src/orbit_renderer.rs).

Modelling conventions:
* `f32`/`f64` quantities are modelled as exact rationals (`ℚ`).
* `Epoch` and `Duration` (from the external nyx_space/hifitime crates) are
  modelled as rationals measured in seconds; `Epoch + Duration`,
  `Epoch - Epoch` and `Duration / f64` become the corresponding rational
  operations.
* The external ephemeris handle `Cosm` is opaque in the source (loaded from a
  binary dataset); it is modelled as a structure of abstract functions over an
  abstract frame type, and theorems quantify over it.
* `Bodies::ephem_path` of nyx_space is likewise opaque and is passed in as an
  abstract function `ephem_path : NyxBody → List Nat`.
* The float functions `cos`, `sin` and the constant `std::f32::consts::PI`
  used by `equatorial_to_ecliptic` are passed in as abstract parameters
  `fcos fsin : ℚ → ℚ` and `pi32 : ℚ`.
* Rust's `HashMap<CelestialBodyId, CelestialBody>` is modelled as an
  association list in insertion order; `HashMap::get` becomes `findBody`.
* Fallible operations (`unwrap`, slice indexing) return `Option`.
-/

/-- Source: celestial_body.rs, enum CelestialBodyType. -/
inductive CelestialBodyType where
  | Star
  | Planet
  | Moon
  | Asteroid
  deriving DecidableEq

/-- Source: celestial_body.rs, enum CelestialBodyId. -/
inductive CelestialBodyId where
  | Sun
  | Mercury
  | Venus
  | Earth
  | Moon
  | Mars
  | Jupiter
  | Saturn
  | Uranus
  | Neptune
  deriving DecidableEq

/-- Source: celestial_body.rs, struct CelestialBody (the entity-spawning
fields are rendering glue and are out of scope). -/
structure CelestialBody where
  name : String
  body_type : CelestialBodyType
  radius : ℚ
  parent_id : Option CelestialBodyId
  deriving DecidableEq

/-- Source: celestial_body.rs, CelestialBody::new. -/
def CelestialBody.new (name : String) (body_type : CelestialBodyType)
    (radius : ℚ) (parent_id : Option CelestialBodyId) : CelestialBody :=
  ⟨name, body_type, radius, parent_id⟩

/-- Source: celestial_body.rs, CelestialBody::get_id — derives the id by
matching the display-name string, defaulting to Sun. -/
def CelestialBody.get_id (body : CelestialBody) : CelestialBodyId :=
  match body.name with
  | "Sun" => CelestialBodyId.Sun
  | "Mercury" => CelestialBodyId.Mercury
  | "Venus" => CelestialBodyId.Venus
  | "Earth" => CelestialBodyId.Earth
  | "Moon" => CelestialBodyId.Moon
  | "Mars" => CelestialBodyId.Mars
  | "Jupiter" => CelestialBodyId.Jupiter
  | "Saturn" => CelestialBodyId.Saturn
  | "Uranus" => CelestialBodyId.Uranus
  | "Neptune" => CelestialBodyId.Neptune
  | _ => CelestialBodyId.Sun

/-- Source: celestial_data.rs, SOLAR_SYSTEM_SCALE. -/
def SOLAR_SYSTEM_SCALE : ℚ := 0.005

/-- Source: celestial_data.rs, get_radius. -/
def get_radius (body : CelestialBodyId) : ℚ :=
  let radius : ℚ :=
    match body with
    | CelestialBodyId.Sun => 696340.0
    | CelestialBodyId.Mercury => 2439.7
    | CelestialBodyId.Venus => 6051.8
    | CelestialBodyId.Earth => 6371.0
    | CelestialBodyId.Moon => 1737.1
    | CelestialBodyId.Mars => 3389.5
    | CelestialBodyId.Jupiter => 69911.0
    | CelestialBodyId.Saturn => 58232.0
    | CelestialBodyId.Uranus => 25362.0
    | CelestialBodyId.Neptune => 24622.0
  radius * SOLAR_SYSTEM_SCALE

/-- Source: celestial_body.rs, struct SolarSystem. The HashMap is modelled as
an association list in insertion order. -/
structure SolarSystem where
  bodies : List (CelestialBodyId × CelestialBody)

/-- Model of Rust's HashMap::get on the association-list registry. -/
def findBody (bodies : List (CelestialBodyId × CelestialBody))
    (id : CelestialBodyId) : Option CelestialBody :=
  match bodies with
  | [] => none
  | (k, b) :: rest => if k = id then some b else findBody rest id

/-- Source: celestial_body.rs, SolarSystem::new — the fixed ten-body catalog,
in insertion order. -/
def SolarSystem.new : SolarSystem :=
  ⟨[(CelestialBodyId.Sun,
      CelestialBody.new "Sun" CelestialBodyType.Star (get_radius CelestialBodyId.Sun) none),
    (CelestialBodyId.Mercury,
      CelestialBody.new "Mercury" CelestialBodyType.Planet (get_radius CelestialBodyId.Mercury) (some CelestialBodyId.Sun)),
    (CelestialBodyId.Venus,
      CelestialBody.new "Venus" CelestialBodyType.Planet (get_radius CelestialBodyId.Venus) (some CelestialBodyId.Sun)),
    (CelestialBodyId.Earth,
      CelestialBody.new "Earth" CelestialBodyType.Planet (get_radius CelestialBodyId.Earth) (some CelestialBodyId.Sun)),
    (CelestialBodyId.Moon,
      CelestialBody.new "Moon" CelestialBodyType.Moon (get_radius CelestialBodyId.Moon) (some CelestialBodyId.Earth)),
    (CelestialBodyId.Mars,
      CelestialBody.new "Mars" CelestialBodyType.Planet (get_radius CelestialBodyId.Mars) (some CelestialBodyId.Sun)),
    (CelestialBodyId.Jupiter,
      CelestialBody.new "Jupiter" CelestialBodyType.Planet (get_radius CelestialBodyId.Jupiter) (some CelestialBodyId.Sun)),
    (CelestialBodyId.Saturn,
      CelestialBody.new "Saturn" CelestialBodyType.Planet (get_radius CelestialBodyId.Saturn) (some CelestialBodyId.Sun)),
    (CelestialBodyId.Uranus,
      CelestialBody.new "Uranus" CelestialBodyType.Planet (get_radius CelestialBodyId.Uranus) (some CelestialBodyId.Sun)),
    (CelestialBodyId.Neptune,
      CelestialBody.new "Neptune" CelestialBodyType.Planet (get_radius CelestialBodyId.Neptune) (some CelestialBodyId.Sun))]⟩

/-- Source: celestial_body.rs, SolarSystem::get_visible_bodies. -/
def SolarSystem.get_visible_bodies (ss : SolarSystem)
    (body_id : CelestialBodyId) : List CelestialBody :=
  match findBody ss.bodies body_id with
  | none => []
  | some body =>
    match body.body_type with
    | CelestialBodyType.Star => [body]
    | CelestialBodyType.Planet =>
      let withParent :=
        match body.parent_id with
        | some parent_id =>
          match findBody ss.bodies parent_id with
          | some parent_body => [body, parent_body]
          | none => [body]
        | none => [body]
      withParent ++
        (ss.bodies.filter (fun q => decide (q.2.parent_id = some body_id))).map Prod.snd
    | CelestialBodyType.Moon =>
      match body.parent_id with
      | some parent_id =>
        match findBody ss.bodies parent_id with
        | some parent_body =>
          match parent_body.parent_id with
          | some grandparent_id =>
            match findBody ss.bodies grandparent_id with
            | some grandparent_body => [body, parent_body, grandparent_body]
            | none => [body, parent_body]
          | none => [body, parent_body]
        | none => [body]
      | none => [body]
    | CelestialBodyType.Asteroid => [body]

/-- Epoch (nyx_space/hifitime absolute instant), modelled as rational seconds. -/
abbrev Epoch := ℚ

/-- Duration (hifitime), modelled as rational seconds. -/
abbrev Duration := ℚ

/-- Bevy Vec3, modelled with exact rational components. -/
structure Vec3 where
  x : ℚ
  y : ℚ
  z : ℚ
  deriving DecidableEq

instance : Sub Vec3 := ⟨fun a b => ⟨a.x - b.x, a.y - b.y, a.z - b.z⟩⟩

instance : HMul Vec3 ℚ Vec3 := ⟨fun v c => ⟨v.x * c, v.y * c, v.z * c⟩⟩

/-- Bevy Vec3::ZERO. -/
def Vec3.zero : Vec3 := ⟨0, 0, 0⟩

/-- The nyx_space Bodies variants referenced by get_ephem_path. -/
inductive NyxBody where
  | Sun
  | Mercury
  | Venus
  | Earth
  | Luna
  | MarsBarycenter
  | JupiterBarycenter
  | SaturnBarycenter
  | UranusBarycenter
  | NeptuneBarycenter
  deriving DecidableEq

/-- The nyx_space LightTimeCalc correction mode. -/
inductive LightTimeCalc where
  | NoCorrection
  | LightTime
  | Abberation
  deriving DecidableEq

/-- The raw state returned by Cosm::celestial_state; only the position
components are consumed by this repository. -/
structure Orbit where
  x : ℚ
  y : ℚ
  z : ℚ

/-- The external nyx_space Cosm ephemeris handle, modelled as an abstract
record of its two capabilities consumed by the repository, over an abstract
frame type. -/
structure Cosm (Frame : Type) where
  celestial_state : List Nat → Epoch → Frame → LightTimeCalc → Orbit
  frame_from_ephem_path : List Nat → Frame

/-- Source: celestial_data.rs, get_ephem_path; `ephem_path` stands for the
opaque nyx_space Bodies::ephem_path table. -/
def get_ephem_path (ephem_path : NyxBody → List Nat)
    (body : CelestialBodyId) : List Nat :=
  match body with
  | CelestialBodyId.Sun => ephem_path NyxBody.Sun
  | CelestialBodyId.Mercury => ephem_path NyxBody.Mercury
  | CelestialBodyId.Venus => ephem_path NyxBody.Venus
  | CelestialBodyId.Earth => ephem_path NyxBody.Earth
  | CelestialBodyId.Moon => ephem_path NyxBody.Luna
  | CelestialBodyId.Mars => ephem_path NyxBody.MarsBarycenter
  | CelestialBodyId.Jupiter => ephem_path NyxBody.JupiterBarycenter
  | CelestialBodyId.Saturn => ephem_path NyxBody.SaturnBarycenter
  | CelestialBodyId.Uranus => ephem_path NyxBody.UranusBarycenter
  | CelestialBodyId.Neptune => ephem_path NyxBody.NeptuneBarycenter

/-- Source: celestial_data.rs, get_frame. -/
def get_frame {Frame : Type} (ephem_path : NyxBody → List Nat)
    (body : CelestialBodyId) (cosm : Cosm Frame) : Frame :=
  cosm.frame_from_ephem_path (get_ephem_path ephem_path body)

/-- Source: celestial_data.rs, get_position — queries the raw state of the
target in the reference body's natural frame, swaps the 2nd and 3rd
components, and scales by SOLAR_SYSTEM_SCALE. -/
def get_position {Frame : Type} (ephem_path : NyxBody → List Nat)
    (target_body central_body : CelestialBodyId) (time : Epoch)
    (cosm : Cosm Frame) : Vec3 :=
  let target := get_ephem_path ephem_path target_body
  let frame := get_frame ephem_path central_body cosm
  let correction := LightTimeCalc.Abberation
  let orbit := cosm.celestial_state target time frame correction
  Vec3.mk orbit.x orbit.z orbit.y * SOLAR_SYSTEM_SCALE

/-- Source: celestial_data.rs, get_axial_tilt — static per-body axial-tilt
constants in degrees. -/
def get_axial_tilt (body : CelestialBodyId) : ℚ :=
  match body with
  | CelestialBodyId.Sun => 7.25
  | CelestialBodyId.Mercury => 0.03
  | CelestialBodyId.Venus => 2.64
  | CelestialBodyId.Earth => 23.4
  | CelestialBodyId.Moon => 6.7
  | CelestialBodyId.Mars => 25.2
  | CelestialBodyId.Jupiter => 3.1
  | CelestialBodyId.Saturn => 26.7
  | CelestialBodyId.Uranus => 82.2
  | CelestialBodyId.Neptune => 28.3

/-- Source: celestial_data.rs, equatorial_to_ecliptic; `fcos`, `fsin` and
`pi32` stand for the float cosine, sine and std::f32::consts::PI. -/
def equatorial_to_ecliptic (fcos fsin : ℚ → ℚ) (pi32 : ℚ)
    (pos : Vec3) (central_body : CelestialBodyId) : Vec3 :=
  let x := pos.x
  let y := pos.y
  let z := pos.z
  let axial_tilt := get_axial_tilt central_body * pi32 / 180
  let x_prime := x
  let y_prime := y * fcos axial_tilt - z * fsin axial_tilt
  let z_prime := y * fsin axial_tilt + z * fcos axial_tilt
  Vec3.mk x_prime y_prime z_prime

/-- Source: celestial_data.rs, get_traj. The leading registry lookup is the
source's `.unwrap()`; its panic on an absent id is modelled as `none`. The
unused pure `get_frame` lets of the source are omitted. -/
def get_traj {Frame : Type} (ephem_path : NyxBody → List Nat)
    (target_body central_body : CelestialBodyId)
    (start_time end_time : Epoch) (steps : Nat)
    (solar_system : SolarSystem) (cosm : Cosm Frame) : Option (List Vec3) :=
  match findBody solar_system.bodies target_body with
  | none => none
  | some target =>
    if target_body = CelestialBodyId.Sun then
      some []
    else if target.body_type = CelestialBodyType.Planet then
      let central_position :=
        get_position ephem_path central_body CelestialBodyId.Sun start_time cosm
      let time_step : Duration := (end_time - start_time) / (steps : ℚ)
      some (((List.range steps).map fun i : Nat =>
        get_position ephem_path target_body CelestialBodyId.Sun
            (start_time + time_step * (i : ℚ)) cosm
          - central_position) ++ [Vec3.zero])
    else
      let time_step : Duration := (end_time - start_time) / (steps : ℚ)
      some ((List.range steps).map fun i : Nat =>
        get_position ephem_path target_body central_body
          (start_time + time_step * (i : ℚ)) cosm)

/-- Source: celestial_data.rs, default_ephemeris; `de438` stands for the
external Cosm::de438 dataset handle. -/
def default_ephemeris {Frame : Type} (de438 : Cosm Frame) : Cosm Frame :=
  de438

/-- Source: celestial_body.rs, SolarSystem::set_positions. The panicking
`bodies[0]` index on an empty slice is modelled as `none`. -/
def SolarSystem.set_positions {Frame : Type} (ephem_path : NyxBody → List Nat)
    (fcos fsin : ℚ → ℚ) (pi32 : ℚ) (de438 : Cosm Frame)
    (bodies : List CelestialBody) (epoch : Epoch) : Option (List Vec3) :=
  match bodies with
  | [] => none
  | b0 :: _ =>
    let target_body := b0.get_id
    let cosm := default_ephemeris de438
    some (bodies.map fun body =>
      equatorial_to_ecliptic fcos fsin pi32
        (get_position ephem_path body.get_id target_body epoch cosm) target_body)

/-- Source: orbit_renderer.rs, TRAJ_TOTAL_TIME — one year in seconds. -/
def TRAJ_TOTAL_TIME : ℚ := 86400.0 * 365.5

/-- Source: orbit_renderer.rs, TRAJ_POINTS. -/
def TRAJ_POINTS : Nat := 1000

/-- Source: orbit_renderer.rs, render_trajs — the (target, start, end) epoch
triple of each get_traj call it issues: one per visible body, all with the
single end epoch `epoch + TRAJ_TOTAL_TIME` computed before the loop. -/
def render_trajs_call_epochs (ss : SolarSystem) (selected_body : CelestialBodyId)
    (epoch : Epoch) : List (CelestialBodyId × Epoch × Epoch) :=
  let end_epoch := epoch + TRAJ_TOTAL_TIME
  (SolarSystem.get_visible_bodies ss selected_body).map fun body =>
    (body.get_id, epoch, end_epoch)

/-- Modelled from the spec, §4.3: the standard rotation about the x-axis by a
given angle, against which the source's equatorial_to_ecliptic is compared. -/
def xAxisRotation_spec (fcos fsin : ℚ → ℚ) (tilt : ℚ) (v : Vec3) : Vec3 :=
  ⟨v.x, v.y * fcos tilt - v.z * fsin tilt, v.y * fsin tilt + v.z * fcos tilt⟩

/-- Modelled from the spec, §4.4 position_of: query the raw state of the
target at the epoch in the reference body's natural frame with light-time
correction, swap the 2nd and 3rd components, scale by the fixed display
factor; no ecliptic rotation. -/
def position_of_spec {Frame : Type} (ephem_path : NyxBody → List Nat)
    (target reference : CelestialBodyId) (epoch : Epoch)
    (cosm : Cosm Frame) : Vec3 :=
  let raw := cosm.celestial_state (get_ephem_path ephem_path target) epoch
    (cosm.frame_from_ephem_path (get_ephem_path ephem_path reference))
    LightTimeCalc.Abberation
  let swapped := Vec3.mk raw.x raw.z raw.y
  swapped * SOLAR_SYSTEM_SCALE

/-- A concrete trivial ephemeris instance, used only to evaluate the model on
closed inputs. -/
def unitCosm : Cosm Unit :=
  ⟨fun _ _ _ _ => ⟨0, 0, 0⟩, fun _ => ()⟩

/-- A concrete trivial ephemeris-path table, used only to evaluate the model
on closed inputs. -/
def trivialEphemPath : NyxBody → List Nat := fun _ => []

/-- Helper: the fixed catalog resolves every id. -/
theorem findBody_new_total (id : CelestialBodyId) :
    ∃ b, findBody SolarSystem.new.bodies id = some b := by
  cases id <;> exact ⟨_, rfl⟩

/-- Helper: get_traj evaluated after a successful registry lookup. -/
theorem get_traj_some {Frame : Type} (ephem_path : NyxBody → List Nat)
    (target_body central_body : CelestialBodyId)
    (start_time end_time : Epoch) (steps : Nat)
    (solar_system : SolarSystem) (cosm : Cosm Frame) (target : CelestialBody)
    (hb : findBody solar_system.bodies target_body = some target) :
    get_traj ephem_path target_body central_body start_time end_time steps
        solar_system cosm =
      if target_body = CelestialBodyId.Sun then
        some []
      else if target.body_type = CelestialBodyType.Planet then
        some (((List.range steps).map fun i : Nat =>
          get_position ephem_path target_body CelestialBodyId.Sun
              (start_time + (end_time - start_time) / (steps : ℚ) * (i : ℚ)) cosm
            - get_position ephem_path central_body CelestialBodyId.Sun start_time cosm)
          ++ [Vec3.zero])
      else
        some ((List.range steps).map fun i : Nat =>
          get_position ephem_path target_body central_body
            (start_time + (end_time - start_time) / (steps : ℚ) * (i : ℚ)) cosm) := by
  unfold get_traj
  rw [hb]

/-- C9: the registry built by SolarSystem::new contains an entry for every one
of the ten CelestialBodyId values, so every lookup by id succeeds and the
unchecked lookup at the start of get_traj never hits the absent (panic)
branch: get_traj returns a trajectory for all ids. -/
theorem c9_registry_complete :
    (∀ id : CelestialBodyId, (findBody SolarSystem.new.bodies id).isSome = true)
    ∧ ∀ (Frame : Type) (ephem_path : NyxBody → List Nat) (cosm : Cosm Frame)
        (target_body central_body : CelestialBodyId)
        (start_time end_time : Epoch) (steps : Nat),
        (get_traj ephem_path target_body central_body start_time end_time steps
          SolarSystem.new cosm).isSome = true := by
  refine ⟨by intro id; cases id <;> rfl, ?_⟩
  intro Frame ephem_path cosm target_body central_body start_time end_time steps
  obtain ⟨target, hb⟩ := findBody_new_total target_body
  rw [get_traj_some ephem_path target_body central_body start_time end_time steps
    SolarSystem.new cosm target hb]
  split_ifs <;> rfl

/-- C10: every (id, body) pair stored by SolarSystem::new satisfies
body.get_id = id — the display-name-to-id derivation round-trips over the
whole fixed catalog. -/
theorem c10_get_id_roundtrip :
    ∀ p ∈ SolarSystem.new.bodies, p.2.get_id = p.1 := by decide

/-- C10 witness: the round-trip at the concrete Earth entry. -/
theorem c10_get_id_roundtrip_witness :
    ((CelestialBodyId.Earth,
        CelestialBody.new "Earth" CelestialBodyType.Planet
          (get_radius CelestialBodyId.Earth) (some CelestialBodyId.Sun))
      ∈ SolarSystem.new.bodies)
    ∧ (CelestialBody.new "Earth" CelestialBodyType.Planet
        (get_radius CelestialBodyId.Earth) (some CelestialBodyId.Sun)).get_id
      = CelestialBodyId.Earth :=
  ⟨.tail _ (.tail _ (.tail _ (.head _))),
   c10_get_id_roundtrip
     (CelestialBodyId.Earth,
       CelestialBody.new "Earth" CelestialBodyType.Planet
         (get_radius CelestialBodyId.Earth) (some CelestialBodyId.Sun))
     (.tail _ (.tail _ (.tail _ (.head _))))⟩

/-- C5: for every body p of type Planet in the registry built by
SolarSystem::new, get_visible_bodies p begins with p, followed by p's parent
star, followed by exactly those bodies whose parent is p in registry
iteration order, and contains nothing else. -/
theorem c5_planet_visible_bodies
    (p : CelestialBodyId) (body : CelestialBody)
    (hb : findBody SolarSystem.new.bodies p = some body)
    (ht : body.body_type = CelestialBodyType.Planet) :
    ∃ star_id star, body.parent_id = some star_id
      ∧ findBody SolarSystem.new.bodies star_id = some star
      ∧ star.body_type = CelestialBodyType.Star
      ∧ SolarSystem.get_visible_bodies SolarSystem.new p =
          body :: star ::
            (SolarSystem.new.bodies.filter
              (fun q => decide (q.2.parent_id = some p))).map Prod.snd := by
  cases p <;>
    (have hcb := Option.some.inj hb
     subst hcb
     first
       | exact absurd ht (by decide)
       | exact ⟨CelestialBodyId.Sun, _, rfl, rfl, rfl, rfl⟩)

/-- C5 witness: the planet Earth sees itself, the Sun, and its moon. -/
theorem c5_planet_visible_bodies_witness :
    (findBody SolarSystem.new.bodies CelestialBodyId.Earth =
      some (CelestialBody.new "Earth" CelestialBodyType.Planet
        (get_radius CelestialBodyId.Earth) (some CelestialBodyId.Sun)))
    ∧ ((CelestialBody.new "Earth" CelestialBodyType.Planet
        (get_radius CelestialBodyId.Earth) (some CelestialBodyId.Sun)).body_type
      = CelestialBodyType.Planet)
    ∧ (∃ star_id star,
        (CelestialBody.new "Earth" CelestialBodyType.Planet
          (get_radius CelestialBodyId.Earth) (some CelestialBodyId.Sun)).parent_id
          = some star_id
        ∧ findBody SolarSystem.new.bodies star_id = some star
        ∧ star.body_type = CelestialBodyType.Star
        ∧ SolarSystem.get_visible_bodies SolarSystem.new CelestialBodyId.Earth =
            (CelestialBody.new "Earth" CelestialBodyType.Planet
              (get_radius CelestialBodyId.Earth) (some CelestialBodyId.Sun)) :: star ::
              (SolarSystem.new.bodies.filter
                (fun q => decide (q.2.parent_id = some CelestialBodyId.Earth))).map Prod.snd) :=
  ⟨rfl, rfl,
   c5_planet_visible_bodies CelestialBodyId.Earth
     (CelestialBody.new "Earth" CelestialBodyType.Planet
       (get_radius CelestialBodyId.Earth) (some CelestialBodyId.Sun)) rfl rfl⟩

/-- C8: for every body m of type Moon in the registry built by
SolarSystem::new, with parent p and grandparent s reachable through p,
get_visible_bodies m is exactly the three-element sequence [m, p, s]. -/
theorem c8_moon_visible_bodies
    (m p s : CelestialBodyId) (mb pb sb : CelestialBody)
    (hm : findBody SolarSystem.new.bodies m = some mb)
    (ht : mb.body_type = CelestialBodyType.Moon)
    (hp : mb.parent_id = some p)
    (hpb : findBody SolarSystem.new.bodies p = some pb)
    (hs : pb.parent_id = some s)
    (hsb : findBody SolarSystem.new.bodies s = some sb) :
    SolarSystem.get_visible_bodies SolarSystem.new m = [mb, pb, sb] := by
  cases m <;>
    (have h1 := Option.some.inj hm
     subst h1
     first
       | exact absurd ht (by decide)
       | (have h2 := Option.some.inj hp
          subst h2
          have h3 := Option.some.inj hpb
          subst h3
          have h4 := Option.some.inj hs
          subst h4
          have h5 := Option.some.inj hsb
          subst h5
          rfl))

/-- C8 witness: the Moon sees itself, Earth, and the Sun, in that order. -/
theorem c8_moon_visible_bodies_witness :
    (findBody SolarSystem.new.bodies CelestialBodyId.Moon =
      some (CelestialBody.new "Moon" CelestialBodyType.Moon
        (get_radius CelestialBodyId.Moon) (some CelestialBodyId.Earth)))
    ∧ SolarSystem.get_visible_bodies SolarSystem.new CelestialBodyId.Moon =
        [CelestialBody.new "Moon" CelestialBodyType.Moon
          (get_radius CelestialBodyId.Moon) (some CelestialBodyId.Earth),
         CelestialBody.new "Earth" CelestialBodyType.Planet
          (get_radius CelestialBodyId.Earth) (some CelestialBodyId.Sun),
         CelestialBody.new "Sun" CelestialBodyType.Star
          (get_radius CelestialBodyId.Sun) none] :=
  ⟨rfl,
   c8_moon_visible_bodies CelestialBodyId.Moon CelestialBodyId.Earth CelestialBodyId.Sun
     (CelestialBody.new "Moon" CelestialBodyType.Moon
       (get_radius CelestialBodyId.Moon) (some CelestialBodyId.Earth))
     (CelestialBody.new "Earth" CelestialBodyType.Planet
       (get_radius CelestialBodyId.Earth) (some CelestialBodyId.Sun))
     (CelestialBody.new "Sun" CelestialBodyType.Star
       (get_radius CelestialBodyId.Sun) none)
     rfl rfl rfl rfl rfl rfl⟩

/-- C1 counterexample: for the Planet target Earth with steps = 1 the
trajectory returned by get_traj has 2 points, not exactly 1 — a final zero
vector is appended after the sampled loop. -/
theorem c1_counterexample :
    (get_traj trivialEphemPath CelestialBodyId.Earth CelestialBodyId.Sun
      0 86400 1 SolarSystem.new unitCosm).map List.length = some 2 := rfl

/-- C1 (amended): for every non-Sun target, reference, start < end and
steps ≥ 1, the trajectory exists; for a Moon/Asteroid target it holds exactly
`steps` positions, sample i at epoch start + i·((end − start)/steps); for a
Planet target it holds steps + 1 positions, the first `steps` being those
samples and the last the zero vector; the sampled epochs are strictly
ascending. -/
theorem c1_trajectory_shape
    (Frame : Type) (ephem_path : NyxBody → List Nat) (cosm : Cosm Frame)
    (target_body central_body : CelestialBodyId)
    (start_time end_time : Epoch) (steps : Nat) (target : CelestialBody)
    (hb : findBody SolarSystem.new.bodies target_body = some target)
    (hsun : target_body ≠ CelestialBodyId.Sun)
    (hlt : start_time < end_time) (hsteps : 1 ≤ steps) :
    ∃ tr, get_traj ephem_path target_body central_body start_time end_time steps
        SolarSystem.new cosm = some tr
      ∧ (target.body_type = CelestialBodyType.Planet →
          tr.length = steps + 1
          ∧ (∀ i, i < steps → tr[i]? =
              some (get_position ephem_path target_body CelestialBodyId.Sun
                  (start_time + (end_time - start_time) / (steps : ℚ) * (i : ℚ)) cosm
                - get_position ephem_path central_body CelestialBodyId.Sun start_time cosm))
          ∧ tr[steps]? = some Vec3.zero)
      ∧ (target.body_type ≠ CelestialBodyType.Planet →
          tr.length = steps
          ∧ ∀ i, i < steps → tr[i]? =
              some (get_position ephem_path target_body central_body
                (start_time + (end_time - start_time) / (steps : ℚ) * (i : ℚ)) cosm))
      ∧ (∀ i j : Nat, i < j → j < steps →
          start_time + (end_time - start_time) / (steps : ℚ) * (i : ℚ)
            < start_time + (end_time - start_time) / (steps : ℚ) * (j : ℚ)) := by
  have hstep0 : (0 : ℚ) < (end_time - start_time) / (steps : ℚ) :=
    div_pos (by linarith)
      (by exact_mod_cast Nat.lt_of_lt_of_le Nat.zero_lt_one hsteps)
  have hmono : ∀ i j : Nat, i < j → j < steps →
      start_time + (end_time - start_time) / (steps : ℚ) * (i : ℚ)
        < start_time + (end_time - start_time) / (steps : ℚ) * (j : ℚ) := by
    intro i j hij _
    have hc : (i : ℚ) < (j : ℚ) := by exact_mod_cast hij
    have h2 := mul_lt_mul_of_pos_left hc hstep0
    linarith
  have htraj := get_traj_some ephem_path target_body central_body start_time end_time steps
    SolarSystem.new cosm target hb
  rw [if_neg hsun] at htraj
  by_cases hp : target.body_type = CelestialBodyType.Planet
  · rw [if_pos hp] at htraj
    refine ⟨_, htraj, ?_, fun hnp => absurd hp hnp, hmono⟩
    intro _
    refine ⟨by simp, ?_, ?_⟩
    · intro i hi
      rw [List.getElem?_append_left (by simp [hi])]
      simp [List.getElem?_map, List.getElem?_range, hi]
    · rw [List.getElem?_append_right (by simp)]
      simp
  · rw [if_neg hp] at htraj
    refine ⟨_, htraj, fun hpl => absurd hpl hp, ?_, hmono⟩
    intro _
    refine ⟨by simp, ?_⟩
    intro i hi
    simp [List.getElem?_map, List.getElem?_range, hi]

/-- C1 witness: the amended statement evaluated at target Earth, reference
Sun, time range [0, 86400), one step, over the trivial ephemeris. -/
theorem c1_trajectory_shape_witness :
    (findBody SolarSystem.new.bodies CelestialBodyId.Earth =
      some (CelestialBody.new "Earth" CelestialBodyType.Planet
        (get_radius CelestialBodyId.Earth) (some CelestialBodyId.Sun)))
    ∧ CelestialBodyId.Earth ≠ CelestialBodyId.Sun
    ∧ (0 : ℚ) < 86400
    ∧ 1 ≤ 1
    ∧ (∃ tr, get_traj trivialEphemPath CelestialBodyId.Earth CelestialBodyId.Sun
          0 86400 1 SolarSystem.new unitCosm = some tr
        ∧ ((CelestialBody.new "Earth" CelestialBodyType.Planet
              (get_radius CelestialBodyId.Earth) (some CelestialBodyId.Sun)).body_type
              = CelestialBodyType.Planet →
            tr.length = 1 + 1
            ∧ (∀ i : Nat, i < 1 → tr[i]? =
                some (get_position trivialEphemPath CelestialBodyId.Earth CelestialBodyId.Sun
                    (0 + ((86400 : ℚ) - 0) / ((1 : Nat) : ℚ) * (i : ℚ)) unitCosm
                  - get_position trivialEphemPath CelestialBodyId.Sun CelestialBodyId.Sun
                    0 unitCosm))
            ∧ tr[(1 : Nat)]? = some Vec3.zero)
        ∧ ((CelestialBody.new "Earth" CelestialBodyType.Planet
              (get_radius CelestialBodyId.Earth) (some CelestialBodyId.Sun)).body_type
              ≠ CelestialBodyType.Planet →
            tr.length = 1
            ∧ ∀ i : Nat, i < 1 → tr[i]? =
                some (get_position trivialEphemPath CelestialBodyId.Earth CelestialBodyId.Sun
                  (0 + ((86400 : ℚ) - 0) / ((1 : Nat) : ℚ) * (i : ℚ)) unitCosm))
        ∧ (∀ i j : Nat, i < j → j < 1 →
            0 + ((86400 : ℚ) - 0) / ((1 : Nat) : ℚ) * (i : ℚ)
              < 0 + ((86400 : ℚ) - 0) / ((1 : Nat) : ℚ) * (j : ℚ))) :=
  ⟨rfl, by decide, by norm_num, le_refl 1,
   c1_trajectory_shape Unit trivialEphemPath unitCosm
     CelestialBodyId.Earth CelestialBodyId.Sun 0 86400 1
     (CelestialBody.new "Earth" CelestialBodyType.Planet
       (get_radius CelestialBodyId.Earth) (some CelestialBodyId.Sun))
     rfl (by decide) (by norm_num) (le_refl 1)⟩

/-- C2: for every Planet target in the registry and every reference body,
trajectory point i of get_traj equals the target's position relative to the
Sun at the sampled epoch minus the reference's position relative to the Sun
at the start epoch (the reference position is held fixed, not re-sampled). -/
theorem c2_planet_point_formula
    (Frame : Type) (ephem_path : NyxBody → List Nat) (cosm : Cosm Frame)
    (target_body central_body : CelestialBodyId)
    (start_time end_time : Epoch) (steps i : Nat) (target : CelestialBody)
    (hb : findBody SolarSystem.new.bodies target_body = some target)
    (hp : target.body_type = CelestialBodyType.Planet)
    (hi : i < steps) :
    ∃ tr, get_traj ephem_path target_body central_body start_time end_time steps
        SolarSystem.new cosm = some tr
      ∧ tr[i]? = some (get_position ephem_path target_body CelestialBodyId.Sun
            (start_time + (end_time - start_time) / (steps : ℚ) * (i : ℚ)) cosm
          - get_position ephem_path central_body CelestialBodyId.Sun start_time cosm) := by
  have hsun : target_body ≠ CelestialBodyId.Sun := by
    intro h
    subst h
    have h1 := Option.some.inj hb
    subst h1
    exact absurd hp (by decide)
  have htraj := get_traj_some ephem_path target_body central_body start_time end_time steps
    SolarSystem.new cosm target hb
  rw [if_neg hsun, if_pos hp] at htraj
  refine ⟨_, htraj, ?_⟩
  rw [List.getElem?_append_left (by simp [hi])]
  simp [List.getElem?_map, List.getElem?_range, hi]

/-- C2 witness: the formula evaluated at target Earth, reference Sun,
steps = 1, point 0, over the trivial ephemeris. -/
theorem c2_planet_point_formula_witness :
    (findBody SolarSystem.new.bodies CelestialBodyId.Earth =
      some (CelestialBody.new "Earth" CelestialBodyType.Planet
        (get_radius CelestialBodyId.Earth) (some CelestialBodyId.Sun)))
    ∧ ((CelestialBody.new "Earth" CelestialBodyType.Planet
        (get_radius CelestialBodyId.Earth) (some CelestialBodyId.Sun)).body_type
      = CelestialBodyType.Planet)
    ∧ (0 : Nat) < 1
    ∧ (∃ tr, get_traj trivialEphemPath CelestialBodyId.Earth CelestialBodyId.Sun
          0 86400 1 SolarSystem.new unitCosm = some tr
        ∧ tr[(0 : Nat)]? =
            some (get_position trivialEphemPath CelestialBodyId.Earth CelestialBodyId.Sun
                (0 + ((86400 : ℚ) - 0) / ((1 : Nat) : ℚ) * ((0 : Nat) : ℚ)) unitCosm
              - get_position trivialEphemPath CelestialBodyId.Sun CelestialBodyId.Sun
                0 unitCosm)) :=
  ⟨rfl, rfl, Nat.zero_lt_one,
   c2_planet_point_formula Unit trivialEphemPath unitCosm
     CelestialBodyId.Earth CelestialBodyId.Sun 0 86400 1 0
     (CelestialBody.new "Earth" CelestialBodyType.Planet
       (get_radius CelestialBodyId.Earth) (some CelestialBodyId.Sun))
     rfl rfl Nat.zero_lt_one⟩

/-- C3 counterexample: get_traj called with steps = 0 does not fail; it
returns a normally-returned trajectory — empty for the Moon target, and the
single appended zero point for the Planet target Earth. -/
theorem c3_counterexample :
    get_traj trivialEphemPath CelestialBodyId.Moon CelestialBodyId.Earth
        0 86400 0 SolarSystem.new unitCosm = some []
    ∧ get_traj trivialEphemPath CelestialBodyId.Earth CelestialBodyId.Sun
        0 86400 0 SolarSystem.new unitCosm = some [Vec3.zero] :=
  ⟨rfl, rfl⟩

/-- C3 (amended): get_traj with steps = 0 returns normally rather than
failing with a typed error (no InvalidSampleCountError exists in the code):
the empty trajectory for the Sun and for Moon/Asteroid targets, and the
one-point trajectory holding only the appended zero vector for Planet
targets. -/
theorem c3_steps_zero_returns
    (Frame : Type) (ephem_path : NyxBody → List Nat) (cosm : Cosm Frame)
    (target_body central_body : CelestialBodyId)
    (start_time end_time : Epoch) (target : CelestialBody)
    (hb : findBody SolarSystem.new.bodies target_body = some target) :
    get_traj ephem_path target_body central_body start_time end_time 0
        SolarSystem.new cosm =
      some (if target_body = CelestialBodyId.Sun then []
        else if target.body_type = CelestialBodyType.Planet then [Vec3.zero]
        else []) := by
  rw [get_traj_some ephem_path target_body central_body start_time end_time 0
    SolarSystem.new cosm target hb]
  by_cases h1 : target_body = CelestialBodyId.Sun
  · simp [h1]
  · by_cases h2 : target.body_type = CelestialBodyType.Planet <;> simp [h1, h2]

/-- C3 witness: the amended statement evaluated at the Planet target Earth
over the trivial ephemeris. -/
theorem c3_steps_zero_returns_witness :
    (findBody SolarSystem.new.bodies CelestialBodyId.Earth =
      some (CelestialBody.new "Earth" CelestialBodyType.Planet
        (get_radius CelestialBodyId.Earth) (some CelestialBodyId.Sun)))
    ∧ get_traj trivialEphemPath CelestialBodyId.Earth CelestialBodyId.Sun
        0 86400 0 SolarSystem.new unitCosm =
      some (if CelestialBodyId.Earth = CelestialBodyId.Sun then []
        else if (CelestialBody.new "Earth" CelestialBodyType.Planet
            (get_radius CelestialBodyId.Earth) (some CelestialBodyId.Sun)).body_type
            = CelestialBodyType.Planet then [Vec3.zero]
        else []) :=
  ⟨rfl,
   c3_steps_zero_returns Unit trivialEphemPath unitCosm
     CelestialBodyId.Earth CelestialBodyId.Sun 0 86400
     (CelestialBody.new "Earth" CelestialBodyType.Planet
       (get_radius CelestialBodyId.Earth) (some CelestialBodyId.Sun))
     rfl⟩

/-- C4: equatorial_to_ecliptic rotates its input about the x-axis by the
axial tilt of the reference body passed to it — the per-body static constant
in degrees converted to radians — matching the spec's standard rotation; the
per-body table is not the hardcoded Earth obliquity (Mars reads 25.2 while
Earth reads 23.4). -/
theorem c4_rotation_uses_reference_tilt :
    (∀ (fcos fsin : ℚ → ℚ) (pi32 : ℚ) (v : Vec3) (central_body : CelestialBodyId),
        equatorial_to_ecliptic fcos fsin pi32 v central_body =
          xAxisRotation_spec fcos fsin (get_axial_tilt central_body * pi32 / 180) v)
    ∧ get_axial_tilt CelestialBodyId.Earth = 23.4
    ∧ get_axial_tilt CelestialBodyId.Mars = 25.2 :=
  ⟨fun _ _ _ _ _ => rfl, rfl, rfl⟩

/-- C6: get_position returns the raw ephemeris state with its 2nd and 3rd
components swapped and every component scaled by SOLAR_SYSTEM_SCALE, in the
equatorial frame of the reference body, exactly as the spec's position_of
describes; the equatorial-to-ecliptic rotation is not applied inside
get_position but separately by its caller SolarSystem::set_positions. -/
theorem c6_get_position_frame_convention :
    (∀ (Frame : Type) (ephem_path : NyxBody → List Nat) (cosm : Cosm Frame)
        (target_body central_body : CelestialBodyId) (time : Epoch),
        get_position ephem_path target_body central_body time cosm =
          position_of_spec ephem_path target_body central_body time cosm)
    ∧ (∀ (Frame : Type) (ephem_path : NyxBody → List Nat) (fcos fsin : ℚ → ℚ)
        (pi32 : ℚ) (de438 : Cosm Frame) (b0 : CelestialBody)
        (rest : List CelestialBody) (epoch : Epoch),
        SolarSystem.set_positions ephem_path fcos fsin pi32 de438 (b0 :: rest) epoch =
          some ((b0 :: rest).map fun body =>
            equatorial_to_ecliptic fcos fsin pi32
              (get_position ephem_path body.get_id b0.get_id epoch
                (default_ephemeris de438))
              b0.get_id)) :=
  ⟨fun _ _ _ _ _ _ => rfl, fun _ _ _ _ _ _ _ _ _ => rfl⟩

/-- C7 counterexample: with the Earth selected at epoch 0, render_trajs asks
get_traj for the Earth, Sun and Moon trajectories all with the same end epoch
start + TRAJ_TOTAL_TIME, where TRAJ_TOTAL_TIME is the fixed one-year constant
31,579,200 s — the sampled span does not differ per target body, so the end
epoch for the Moon is not start + orbital_period(Moon). -/
theorem c7_counterexample :
    render_trajs_call_epochs SolarSystem.new CelestialBodyId.Earth 0 =
      [(CelestialBodyId.Earth, 0, 0 + TRAJ_TOTAL_TIME),
       (CelestialBodyId.Sun, 0, 0 + TRAJ_TOTAL_TIME),
       (CelestialBodyId.Moon, 0, 0 + TRAJ_TOTAL_TIME)]
    ∧ TRAJ_TOTAL_TIME = 31579200 :=
  ⟨rfl, by norm_num [TRAJ_TOTAL_TIME]⟩

/-- C7 (amended): when render_trajs supplies the end epoch itself, every
get_traj call it issues uses end = start + TRAJ_TOTAL_TIME with the fixed
constant TRAJ_TOTAL_TIME = 86400 · 365.5 seconds, identical for every target
body; there is no per-body orbital-period lookup. -/
theorem c7_fixed_total_time :
    ∀ (ss : SolarSystem) (selected_body : CelestialBodyId) (epoch : Epoch),
      render_trajs_call_epochs ss selected_body epoch =
        (SolarSystem.get_visible_bodies ss selected_body).map
          (fun body => (body.get_id, epoch, epoch + 86400.0 * 365.5)) :=
  fun _ _ _ => rfl
